import Mathlib

/-!
Verification development for the `timezones` Go package: an encoder
(`buildTZData`) and decoder (`LoadTZData`) for TZif (RFC 8536) data.

Shallow embedding conventions:
* Go strings are byte sequences, modelled as `List Nat` (each entry a byte).
* `time.Time` is modelled by `GoTime` (seconds and nanoseconds; `After` is
  the lexicographic wall-clock comparison, `Unix` returns the seconds).
* `time.Duration` (an `int64` count of nanoseconds) is modelled as `Int`.
* Machine-integer casts are explicit `% 2^w` operations.
* Go panics (out-of-range slice/index operations) are modelled as a
  distinct `crash` outcome of the decoder.
-/

set_option maxRecDepth 100000

namespace TZ

/-- Model of Go `time.Time` as used here: wall-clock seconds and
nanoseconds (no monotonic reading). -/
structure GoTime where
  sec : Int
  nsec : Int
deriving DecidableEq

/-- `t.After u` from Go `time`: lexicographic comparison of (sec, nsec). -/
def GoTime.after (t u : GoTime) : Bool :=
  t.sec > u.sec || (t.sec == u.sec && t.nsec > u.nsec)

/-- `t.Unix()`: seconds since the epoch. -/
def GoTime.unix (t : GoTime) : Int := t.sec

/-- `Zone` from the source: name, offset (nanoseconds), DST flag. -/
structure Zone where
  Name : List Nat
  Offset : Int
  IsDST : Bool
deriving DecidableEq

instance : Inhabited Zone := ⟨⟨[], 0, false⟩⟩

/-- `Change` from the source: transition start instant and zone index. -/
structure Change where
  Start : GoTime
  ZoneIndex : Int
deriving DecidableEq

instance : Inhabited Change := ⟨⟨⟨0, 0⟩, 0⟩⟩

/-- `Template` from the source. -/
structure Template where
  Name : List Nat
  Zones : List Zone
  Changes : List Change
  Extend : List Nat
deriving DecidableEq

/-- `maxUserZones` from the source. -/
def maxUserZones : Nat := 254

/-- `headerSize` from the source: 4 + 1 + 15 + 6*4. -/
def headerSize : Nat := 44

/-- `zoneDesignations` from the source: the designation interner state. -/
structure zoneDesignations where
  charcnt : Nat
  names : List (List Nat)
  offsets : List Nat
deriving DecidableEq

/-- The scan loop of `zoneDesignations.add`: walk `names` and `offsets` in
parallel (Go indexes `offsets[i]` for `i < len(names)`); on the first stored
name having `name` as a suffix, return `offsets[i] + len(names[i]) - len(name)`. -/
def addScan : List (List Nat) → List Nat → List Nat → Option Nat
  | n :: ns, o :: os, name =>
    if name.isSuffixOf n then some (o + n.length - name.length)
    else addScan ns os name
  | _, _, _ => none

/-- `zoneDesignations.add` from the source. -/
def zoneDesignations.add (zd : zoneDesignations) (name : List Nat) : zoneDesignations :=
  match addScan zd.names zd.offsets name with
  | some off => { zd with offsets := zd.offsets ++ [off] }
  | none =>
    { charcnt := zd.charcnt + name.length + 1
      names := zd.names ++ [name]
      offsets := zd.offsets ++ [zd.charcnt] }

/-- Big-endian encoding of `n % 256^w` into `w` bytes. -/
def toBytesBE : Nat → Nat → List Nat
  | 0, _ => []
  | w + 1, n => toBytesBE w (n / 256) ++ [n % 256]

/-- Go `uint64(x)` of an `Int`, as a `Nat`. -/
def toUInt64 (x : Int) : Nat := (x.emod 18446744073709551616).toNat

/-- Go `uint32(x)` of an `Int`, as a `Nat`. -/
def toUInt32 (x : Int) : Nat := (x.emod 4294967296).toNat

/-- Go `byte(x)` of an `Int`, as a `Nat`. -/
def toByte (x : Int) : Nat := (x.emod 256).toNat

/-- `putLocalTimeTypeRecord` from the source: 4-byte big-endian
`uint32(offset/time.Second)`, 1-byte DST flag, 1-byte designation offset. -/
def putLocalTimeTypeRecord (offset : Int) (isDST : Bool) (nameOffset : Nat) : List Nat :=
  toBytesBE 4 (toUInt32 (Int.tdiv offset 1000000000)) ++
    [if isDST then 1 else 0] ++ [nameOffset % 256]

/-- The strict-ordering validation of `buildTZData`: each change's `Start`
must be strictly after the previous one (`!Start.After(prev)` → error). -/
def strictlyOrdered : List Change → Bool
  | [] => true
  | [_] => true
  | a :: b :: rest => b.Start.after a.Start && strictlyOrdered (b :: rest)

/-- Encoder error values (the distinct `fmt.Errorf` results of `buildTZData`). -/
inductive BuildError where
  | tooManyZones
  | noZoneInfo
  | tooManyChanges
  | unordered
  | designationsTooLong
deriving DecidableEq

/-- The interner state produced inside `buildTZData`: the anchor (copy of
`zones[0]`, or the zero zone) is added first, then every zone name in order. -/
def buildDesignations (t : Template) : zoneDesignations :=
  (((t.Zones.headD default).Name :: t.Zones.map Zone.Name).foldl
    zoneDesignations.add ⟨0, [], []⟩)

/-- `buildTZData` from the source.  Validation order matches the Go code:
zone cap, zone/extend presence, change count, designation size, strict
ordering; then the byte layout: empty v1 header, v2 header with counts,
8-byte transition times, transition-type bytes (`ZoneIndex+1`), local time
type records (anchor first), designations, std/wall and UT/local indicator
bytes all 1, footer `\n extend \n`. -/
def buildTZData (t : Template) : Except BuildError (List Nat) :=
  if maxUserZones < t.Zones.length then .error .tooManyZones
  else if t.Zones.isEmpty && t.Extend.isEmpty then .error .noZoneInfo
  else if 4294967295 < t.Changes.length then .error .tooManyChanges
  else
    let timecnt := t.Changes.length
    let typecnt := t.Zones.length + 1
    let firstZ := t.Zones.headD default
    let zd := buildDesignations t
    if 255 < zd.charcnt then .error .designationsTooLong
    else if ! strictlyOrdered t.Changes then .error .unordered
    else .ok (
      -- v1 header: magic, version '3', unused + counts all zero
      ([84, 90, 105, 102, 51] ++ List.replicate 39 0) ++
      -- v2 header: magic, version '3', 15 unused bytes, six big-endian counts
      ([84, 90, 105, 102, 51] ++ List.replicate 15 0 ++
        toBytesBE 4 timecnt ++ toBytesBE 4 timecnt ++ toBytesBE 4 0 ++
        toBytesBE 4 timecnt ++ toBytesBE 4 typecnt ++ toBytesBE 4 zd.charcnt) ++
      -- transition times: big-endian uint64(Start.Unix())
      (t.Changes.map (fun c => toBytesBE 8 (toUInt64 c.Start.unix))).flatten ++
      -- transition types: byte(ZoneIndex + 1)
      (t.Changes.map (fun c => toByte (c.ZoneIndex + 1))) ++
      -- local time type records: anchor record then one per zone
      (((firstZ :: t.Zones).zip zd.offsets).map
        (fun p => putLocalTimeTypeRecord p.1.Offset p.1.IsDST p.2)).flatten ++
      -- designations: each stored name followed by NUL
      (zd.names.map (fun n => n ++ [0])).flatten ++
      -- std/wall and UT/local indicators, all 1
      List.replicate (timecnt + timecnt) 1 ++
      -- footer
      ([10] ++ t.Extend ++ [10]))

/-- Decoder error values (the sentinel errors of the source). -/
inductive LoadError where
  | invalid
  | unsupportedVersion
  | tooManyZones
  | stdUT
deriving DecidableEq

/-- Outcome of `LoadTZData`: a template, an error, or a runtime crash
(a Go panic from an out-of-range slice or index operation). -/
inductive LoadResult where
  | ok (t : Template)
  | err (e : LoadError)
  | crash
deriving DecidableEq

/-- Big-endian 32-bit read at offset `i` (callers establish in-range). -/
def be32 (b : List Nat) (i : Nat) : Nat :=
  b.getD i 0 * 16777216 + b.getD (i + 1) 0 * 65536 + b.getD (i + 2) 0 * 256 +
    b.getD (i + 3) 0

/-- Big-endian read of the first `w` bytes of `bs`. -/
def beN (w : Nat) (bs : List Nat) : Nat :=
  (bs.take w).foldl (fun a b => a * 256 + b) 0

/-- Go `int32(x)` of a `uint32` value. -/
def toInt32 (n : Nat) : Int :=
  if n < 2147483648 then (n : Int) else (n : Int) - 4294967296

/-- Go `int64(x)` of a `uint64` value. -/
def toInt64 (n : Nat) : Int :=
  if n < 9223372036854775808 then (n : Int) else (n : Int) - 18446744073709551616

/-- The sliced data sections of a TZif buffer, plus the fields of the header
that the decoder still needs. -/
structure Sections where
  version : Nat
  times : List Nat
  types : List Nat
  ltt : List Nat
  chars : List Nat
  isstd : List Nat
  isut : List Nat
  footer : List Nat
  timecnt : Nat
  typecnt : Nat
deriving DecidableEq

/-- Slice the data block `r` into its sections, in the order the source
reads them: times, types, local time type records, designations,
leap-second records (skipped), std/wall indicators, UT/local indicators;
the remainder is the footer candidate. -/
def sliceSections (version tsize timecnt typecnt charcnt leapcnt isstdcnt isutcnt : Nat)
    (r : List Nat) : Sections :=
  let times := r.take (timecnt * tsize)
  let r1 := r.drop (timecnt * tsize)
  let types := r1.take timecnt
  let r2 := r1.drop timecnt
  let ltt := r2.take (typecnt * 6)
  let r3 := r2.drop (typecnt * 6)
  let chars := r3.take charcnt
  let r4 := r3.drop charcnt
  let r5 := r4.drop (leapcnt * (tsize + 4))
  let isstd := r5.take isstdcnt
  let r6 := r5.drop isstdcnt
  let isut := r6.take isutcnt
  let footer := r6.drop isutcnt
  ⟨version, times, types, ltt, chars, isstd, isut, footer, timecnt, typecnt⟩

/-- The header/size-validation part of `LoadTZData`, up to and including the
slicing of the data sections: length check, magic, version byte, six counts,
v1-block size check, and for version > 1 the skip of the v1 block, second
header (same magic and version byte), and the v2 size checks. -/
def parseHeaderSections (tzdata : List Nat) : Except LoadError Sections :=
  if tzdata.length < headerSize then .error .invalid
  else if ¬(tzdata.getD 0 0 = 84 ∧ tzdata.getD 1 0 = 90 ∧
      tzdata.getD 2 0 = 105 ∧ tzdata.getD 3 0 = 102) then .error .invalid
  else
    match (match tzdata.getD 4 0 with
          | 0 => some 1
          | 50 => some 2
          | 51 => some 3
          | _ => none : Option Nat) with
    | none => .error .unsupportedVersion
    | some version =>
      let isutcnt := be32 tzdata 20
      let isstdcnt := be32 tzdata 24
      let leapcnt := be32 tzdata 28
      let timecnt := be32 tzdata 32
      let typecnt := be32 tzdata 36
      let charcnt := be32 tzdata 40
      let rest := tzdata.drop headerSize
      let size := timecnt * 5 + typecnt * 6 + charcnt + leapcnt * 8 +
        isstdcnt + isutcnt
      if rest.length < size then .error .invalid
      else if 9223372036854775807 < size then .error .invalid
      else if 1 < version then
        let rest2 := rest.drop size
        if rest2.length < headerSize then .error .invalid
        else if ¬(rest2.getD 0 0 = 84 ∧ rest2.getD 1 0 = 90 ∧
            rest2.getD 2 0 = 105 ∧ rest2.getD 3 0 = 102) then .error .invalid
        else if rest2.getD 4 0 ≠ tzdata.getD 4 0 then .error .invalid
        else
          let isutcnt2 := be32 rest2 20
          let isstdcnt2 := be32 rest2 24
          let leapcnt2 := be32 rest2 28
          let timecnt2 := be32 rest2 32
          let typecnt2 := be32 rest2 36
          let charcnt2 := be32 rest2 40
          let rest3 := rest2.drop headerSize
          let size2 := timecnt2 * 9 + typecnt2 * 6 + charcnt2 + leapcnt2 * 12 +
            isstdcnt2 + isutcnt2
          if rest3.length < size2 then .error .invalid
          else if 9223372036854775807 < size2 then .error .invalid
          else .ok (sliceSections version 8 timecnt2 typecnt2 charcnt2 leapcnt2
            isstdcnt2 isutcnt2 rest3)
      else .ok (sliceSections version 4 timecnt typecnt charcnt leapcnt
        isstdcnt isutcnt rest)

/-- Version-1 transition-time parse: `n` big-endian `int32` values. -/
def parse32 : Nat → List Nat → List Int
  | 0, _ => []
  | n + 1, bs => toInt32 (beN 4 bs) :: parse32 n (bs.drop 4)

/-- Version-2+ transition-time parse: `n` big-endian `int64` values. -/
def parse64 : Nat → List Nat → List Int
  | 0, _ => []
  | n + 1, bs => toInt64 (beN 8 bs) :: parse64 n (bs.drop 8)

/-- `zeroTerminated` from the source: the prefix up to the first NUL byte,
or the whole string when it has no NUL. -/
def zeroTerminated : List Nat → List Nat
  | [] => []
  | c :: rest => if c = 0 then [] else c :: zeroTerminated rest

/-- The local-time-type decode loop of `LoadTZData`: for each 6-byte record,
a big-endian signed offset (scaled to nanoseconds), a DST byte restricted to
{0,1}, and a designation offset that must be below `charcnt`; the name is
the NUL-terminated string starting there. -/
def parseZones (ltt chars : List Nat) : Nat → Except LoadError (List Zone)
  | 0 => .ok []
  | n + 1 =>
    let offset := toInt32 (beN 4 ltt) * 1000000000
    let d := ltt.getD 4 0
    let idx := ltt.getD 5 0
    if d = 0 then
      if idx ≥ chars.length then .error .invalid
      else
        match parseZones (ltt.drop 6) chars n with
        | .error e => .error e
        | .ok zs => .ok (⟨zeroTerminated (chars.drop idx), offset, false⟩ :: zs)
    else if d = 1 then
      if idx ≥ chars.length then .error .invalid
      else
        match parseZones (ltt.drop 6) chars n with
        | .error e => .error e
        | .ok zs => .ok (⟨zeroTerminated (chars.drop idx), offset, true⟩ :: zs)
    else .error .invalid

/-- The backward scan of `firstZone`: indices `j, j-1, …, 0`, returning the
first (largest) index holding a non-DST zone.  The source only calls it with
`j` in range, so the out-of-range fallback continues the scan. -/
def backScan (zones : List Zone) : Nat → Option Nat
  | 0 =>
    match zones.get? 0 with
    | some z => if z.IsDST then none else some 0
    | none => none
  | j + 1 =>
    match zones.get? (j + 1) with
    | some z => if z.IsDST then backScan zones j else some (j + 1)
    | none => backScan zones j

/-- The forward scan of `firstZone` (`for i := range zones`), with the index
accumulator made explicit; returns 0 when every zone is DST. -/
def fwdScanAux : List Zone → Nat → Nat
  | [], _ => 0
  | z :: zs, i => if z.IsDST then fwdScanAux zs (i + 1) else i

/-- `firstZone` from the source.  `none` models the Go panic when the first
change's zone index is out of range of `zones`. -/
def firstZone (zones : List Zone) (changes : List Change) (zeroIsUsed : Bool) :
    Option Nat :=
  if !zeroIsUsed then some 0
  else
    match changes with
    | [] => some (fwdScanAux zones 0)
    | c :: _ =>
      if c.ZoneIndex < 0 then none
      else
        match zones.get? c.ZoneIndex.toNat with
        | none => none
        | some z =>
          if z.IsDST then
            match c.ZoneIndex.toNat with
            | 0 => some (fwdScanAux zones 0)
            | j + 1 =>
              match backScan zones j with
              | some i => some i
              | none => some (fwdScanAux zones 0)
          else some (fwdScanAux zones 0)

/-- The `fz ≠ 0` correction step of `LoadTZData`: swap zones 0 and `fz`,
remap each change's index by the 0↔fz swap, and recompute `zeroIsUsed`
(set exactly when some change carried index `fz`). -/
def swapRemap (zones : List Zone) (changes : List Change) (fz : Nat) :
    List Zone × List Change × Bool :=
  let z0 := zones.getD 0 default
  let zf := zones.getD fz default
  let zones2 := (zones.set 0 zf).set fz z0
  let changes2 := changes.map (fun c =>
    if c.ZoneIndex = 0 then ⟨c.Start, (fz : Int)⟩
    else if c.ZoneIndex = (fz : Int) then ⟨c.Start, 0⟩
    else c)
  let zeroIsUsed2 := changes.any (fun c => c.ZoneIndex == (fz : Int))
  (zones2, changes2, zeroIsUsed2)

/-- The footer parse of `LoadTZData`: when the remaining bytes begin and end
with a newline, `extend` is everything strictly between them; otherwise
`extend` stays empty (no error). -/
def parseExtend (rest : List Nat) : List Nat :=
  if 2 ≤ rest.length ∧ rest.getD 0 0 = 10 ∧ rest.getD (rest.length - 1) 0 = 10
  then (rest.drop 1).dropLast
  else []

/-- The anchor-removal step of `LoadTZData`: when zero is unused and zones 0
and 1 are identical, or there are no changes and `extend` is non-empty,
drop zone 0 and decrement every change's index.  `none` models the Go panic
of `zones[1:]` on an empty zone list. -/
def removeAnchor (zones : List Zone) (changes : List Change) (extend : List Nat)
    (zeroIsUsed : Bool) : Option (List Zone × List Change) :=
  if (!zeroIsUsed && decide (2 ≤ zones.length) &&
        decide (zones.getD 0 default = zones.getD 1 default)) ||
      (changes.isEmpty && !extend.isEmpty) then
    match zones with
    | [] => none
    | _ :: zs => some (zs, changes.map (fun c => ⟨c.Start, c.ZoneIndex - 1⟩))
  else some (zones, changes)

/-- The body of `LoadTZData` after the indicator checks: decode changes and
zones, apply the first-zone correction, parse the footer, undo the anchor
insertion, and enforce the zone cap. -/
def decodeBody (s : Sections) : LoadResult :=
  let secs := if s.version = 1 then parse32 s.timecnt s.times
    else parse64 s.timecnt s.times
  let changes := List.zipWith
    (fun sec ty => Change.mk ⟨sec, 0⟩ (Int.ofNat ty)) secs s.types
  let zeroIsUsed := s.types.any (fun ty => ty == 0)
  match parseZones s.ltt s.chars s.typecnt with
  | .error e => .err e
  | .ok zones =>
    match firstZone zones changes zeroIsUsed with
    | none => .crash
    | some fz =>
      let zcz := if fz = 0 then (zones, changes, zeroIsUsed)
        else swapRemap zones changes fz
      let extend := parseExtend s.footer
      match removeAnchor zcz.1 zcz.2.1 extend zcz.2.2 with
      | none => .crash
      | some zc =>
        if maxUserZones < zc.1.length then .err .tooManyZones
        else .ok ⟨[], zc.1, zc.2, extend⟩

/-- The decode of the sliced sections: first the std/wall and UT/local
indicator checks (every byte must be 1), then the body. -/
def decodeSections (s : Sections) : LoadResult :=
  if s.isstd.any (fun b => b != 1) then .err .stdUT
  else if s.isut.any (fun b => b != 1) then .err .stdUT
  else decodeBody s

/-- `LoadTZData` from the source. -/
def LoadTZData (tzdata : List Nat) : LoadResult :=
  match parseHeaderSections tzdata with
  | .error e => .err e
  | .ok s => decodeSections s

/-! ### Concrete inputs used by the claim theorems -/

/-- Four zones named "AB", "B", "CD", "D": the designation interner assigns
"D" a wrong offset, because after the suffix-reuse of the duplicated first
name the `offsets` list no longer aligns with the `names` list. -/
def c1Template : Template :=
  ⟨[], [⟨[65, 66], 0, false⟩, ⟨[66], 0, false⟩, ⟨[67, 68], 0, false⟩,
    ⟨[68], 0, false⟩], [], []⟩

/-- What decoding the encoding of `c1Template` actually returns: the fourth
zone comes back named "B" (byte 66) instead of "D" (byte 68). -/
def c1Decoded : Template :=
  ⟨[], [⟨[65, 66], 0, false⟩, ⟨[66], 0, false⟩, ⟨[67, 68], 0, false⟩,
    ⟨[66], 0, false⟩], [], []⟩

/-- A v1 buffer with all counts zero and footer `\n X \n`: the non-empty
extend string triggers the anchor-removal step on an empty zone list, and
`zones[1:]` panics. -/
def c2bufA : List Nat := [84, 90, 105, 102, 0] ++ List.replicate 39 0 ++ [10, 88, 10]

/-- A v1 buffer with `timecnt = 2`, `typecnt = 1` and transition-type bytes
`[7, 0]`: byte 0 marks type 0 as used, and `firstZone` then indexes
`zones[7]`, out of range of the single decoded zone. -/
def c2bufB : List Nat :=
  [84, 90, 105, 102, 0] ++ List.replicate 15 0 ++
  toBytesBE 4 0 ++ toBytesBE 4 0 ++ toBytesBE 4 0 ++ toBytesBE 4 2 ++
  toBytesBE 4 1 ++ toBytesBE 4 1 ++ List.replicate 8 0 ++ [7, 0] ++
  List.replicate 6 0 ++ [0]

/-- A v1 buffer whose sections parse (`typecnt = 1`, `charcnt = 1`) followed
by the single trailing byte `X`: not a valid footer. -/
def c3buf : List Nat :=
  [84, 90, 105, 102, 0] ++ List.replicate 15 0 ++
  toBytesBE 4 0 ++ toBytesBE 4 0 ++ toBytesBE 4 0 ++ toBytesBE 4 0 ++
  toBytesBE 4 1 ++ toBytesBE 4 1 ++ List.replicate 6 0 ++ [0] ++ [88]

/-- A minimal v1 buffer (`typecnt = 1`, `charcnt = 1`, no trailing bytes)
on which decoding succeeds. -/
def b9 : List Nat :=
  [84, 90, 105, 102, 0] ++ List.replicate 15 0 ++
  toBytesBE 4 0 ++ toBytesBE 4 0 ++ toBytesBE 4 0 ++ toBytesBE 4 0 ++
  toBytesBE 4 1 ++ toBytesBE 4 1 ++ List.replicate 6 0 ++ [0]

/-- The template decoded from `b9`. -/
def t9 : Template := ⟨[], [⟨[], 0, false⟩], [], []⟩

/-- A v1 buffer with `isstdcnt = 1` and the single std/wall indicator
byte equal to 2. -/
def c6buf : List Nat :=
  [84, 90, 105, 102, 0] ++ List.replicate 15 0 ++
  toBytesBE 4 0 ++ toBytesBE 4 1 ++ toBytesBE 4 0 ++ toBytesBE 4 0 ++
  toBytesBE 4 0 ++ toBytesBE 4 0 ++ [2]

/-- The sections sliced from `c6buf`. -/
def c6secs : Sections := ⟨1, [], [], [], [], [2], [], [], 0, 0⟩

/-- The interner state after adding "AB", "B", "CD", "D" in order. -/
def c5State : zoneDesignations :=
  ((((zoneDesignations.mk 0 [] []).add [65, 66]).add [66]).add [67, 68]).add [68]

/-- One zone whose 255-byte name makes the designation buffer 256 bytes
long, together with two changes at the same instant (unordered). -/
def c7Template : Template :=
  ⟨[], [⟨List.replicate 255 65, 0, false⟩],
    [⟨⟨5, 0⟩, 0⟩, ⟨⟨5, 0⟩, 0⟩], []⟩

/-- A small template whose two changes share the same start instant. -/
def c7Witness : Template :=
  ⟨[], [⟨[], 0, false⟩], [⟨⟨5, 0⟩, 0⟩, ⟨⟨5, 0⟩, 0⟩], []⟩

/-- 254 identically-named zones: exactly at the encoder's zone cap. -/
def ex254 : Template := ⟨[], List.replicate 254 ⟨[], 0, false⟩, [], []⟩

/-- 255 zones: one over the encoder's zone cap. -/
def ex255 : Template := ⟨[], List.replicate 255 ⟨[], 0, false⟩, [], []⟩

/-! ### Helper lemmas -/

/-- `strictlyOrdered` fails exactly when some adjacent pair of changes has
the later start not strictly after the earlier one. -/
theorem strictlyOrdered_eq_false_iff : ∀ l : List Change,
    strictlyOrdered l = false ↔
      ∃ i, i + 1 < l.length ∧
        (l.getD (i + 1) default).Start.after (l.getD i default).Start = false
  | [] => by simp [strictlyOrdered]
  | [a] => by simp [strictlyOrdered]
  | a :: b :: rest => by
    have ih := strictlyOrdered_eq_false_iff (b :: rest)
    rw [strictlyOrdered]
    constructor
    · intro h
      rcases Bool.and_eq_false_iff.mp h with h | h
      · exact ⟨0, by simp, by simpa using h⟩
      · obtain ⟨i, hi, hf⟩ := ih.mp h
        exact ⟨i + 1, by simpa [Nat.succ_lt_succ_iff] using hi,
          by simpa [List.getD_cons_succ] using hf⟩
    · rintro ⟨i, hi, hf⟩
      apply Bool.and_eq_false_iff.mpr
      cases i with
      | zero => exact Or.inl (by simpa using hf)
      | succ j =>
        exact Or.inr (ih.mpr ⟨j, by simpa [Nat.succ_lt_succ_iff] using hi,
          by simpa [List.getD_cons_succ] using hf⟩)

/-- A NUL-free string is returned whole by `zeroTerminated`. -/
theorem zeroTerminated_eq_self : ∀ l : List Nat, (∀ c ∈ l, c ≠ 0) →
    zeroTerminated l = l
  | [], _ => rfl
  | c :: rest, h => by
    rw [zeroTerminated, if_neg (h c (by simp))]
    rw [zeroTerminated_eq_self rest (fun x hx => h x (by simp [hx]))]

/-- The only error `parseZones` produces is `invalid`. -/
theorem parseZones_error_invalid : ∀ (ltt chars : List Nat) (n : Nat) (e : LoadError),
    parseZones ltt chars n = .error e → e = .invalid
  | _, _, 0, _ => by
    intro h
    simp [parseZones] at h
  | ltt, chars, n + 1, e => by
    intro h
    rw [parseZones] at h
    split at h
    · split at h
      · simp only [Except.error.injEq] at h
        exact h.symm
      · split at h
        · rename_i e1 heq
          simp only [Except.error.injEq] at h
          exact h ▸ parseZones_error_invalid _ _ n e1 heq
        · simp at h
    · split at h
      · split at h
        · simp only [Except.error.injEq] at h
          exact h.symm
        · split at h
          · rename_i e1 heq
            simp only [Except.error.injEq] at h
            exact h ▸ parseZones_error_invalid _ _ n e1 heq
          · simp at h
      · simp only [Except.error.injEq] at h
        exact h.symm

/-- After the indicator checks pass, no later step of the decoder produces
the `stdUT` error. -/
theorem decodeBody_ne_stdUT (s : Sections) :
    decodeBody s ≠ LoadResult.err LoadError.stdUT := by
  intro h
  simp only [decodeBody] at h
  split at h
  · rename_i e heq
    simp only [LoadResult.err.injEq] at h
    exact absurd (h ▸ parseZones_error_invalid _ _ _ e heq) (by simp)
  · split at h
    · simp at h
    · split at h
      · simp at h
      · split at h
        · simp at h
        · simp at h

/-! ### Claim theorems -/

/-- C1: the round-trip guarantee fails on the code.  For the template with
zones named "AB", "B", "CD", "D" (which satisfies every §3 invariant and
does not rely on any anchor-heuristic false positive), encoding succeeds
and decoding succeeds, but the result differs from the input: the fourth
zone's name comes back as "B" instead of "D", because the designation
interner pairs `names[i]` with `offsets[i]` although the two lists are no
longer aligned after a suffix reuse. -/
theorem C1_round_trip_code_bug :
    (match buildTZData c1Template with
      | .ok b => LoadTZData b
      | .error _ => LoadResult.crash) = LoadResult.ok c1Decoded
    ∧ c1Decoded ≠ c1Template := by
  exact ⟨rfl, by decide⟩

/-- C2: `LoadTZData` does crash on corrupt input, at exactly the two spots
the claim requires to be safe: `c2bufA` (no zones, non-empty extend) makes
the anchor-removal step slice `zones[1:]` of an empty list, and `c2bufB`
(transition-type byte 7 with `typecnt = 1`, plus a 0 byte marking type 0
used) makes `firstZone` index `zones[7]` out of range. -/
theorem C2_decode_crash_code_bug :
    LoadTZData c2bufA = LoadResult.crash ∧ LoadTZData c2bufB = LoadResult.crash := by
  exact ⟨rfl, rfl⟩

/-- C3 counterexample: a buffer whose header and data blocks parse but whose
trailing byte `X` is not a valid footer does NOT fail with `InvalidData`;
decoding succeeds with an empty extend string. -/
theorem C3_footer_counterexample :
    LoadTZData c3buf = LoadResult.ok ⟨[], [⟨[], 0, false⟩], [], []⟩ := by
  exact rfl

/-- C3 amended: an invalid footer (remaining bytes not both beginning and
ending with a newline) is not an error — the extend string is simply left
empty; a valid footer yields exactly the bytes strictly between the two
newlines, and the two-byte footer yields the empty extend string. -/
theorem C3_footer_amended (rest : List Nat) :
    ((2 ≤ rest.length ∧ rest.getD 0 0 = 10 ∧ rest.getD (rest.length - 1) 0 = 10) →
      parseExtend rest = (rest.drop 1).dropLast)
    ∧ (¬(2 ≤ rest.length ∧ rest.getD 0 0 = 10 ∧ rest.getD (rest.length - 1) 0 = 10) →
      parseExtend rest = [])
    ∧ parseExtend [10, 10] = [] := by
  refine ⟨fun h => ?_, fun h => ?_, rfl⟩
  · unfold parseExtend
    rw [if_pos h]
  · unfold parseExtend
    rw [if_neg h]

/-- Witness for C3's amended theorem at the concrete footer `\n X \n`. -/
theorem C3_footer_amended_witness : parseExtend [10, 88, 10] = [88] :=
  ((C3_footer_amended [10, 88, 10]).1 (by decide)).trans (by decide)

/-- C5: the interner's offset formula is broken by misalignment.  Adding
"AB", "B", "CD", "D" in order stores names "AB" (offset 0) and "CD"
(offset 3, `charcnt` was 3 when it was appended), yet "D" — a suffix of the
stored "CD" — receives offset 2, not `3 + (2 - 1) = 4`, because the code
reads `offsets[1] = 1` (the offset recorded for the reused "B") instead of
the offset of `names[1] = "CD"`. -/
theorem C5_interner_code_bug :
    c5State.offsets = [0, 1, 3, 2] ∧ c5State.names = [[65, 66], [67, 68]] ∧
      c5State.charcnt = 6 := by
  decide

/-- C7 counterexample: a template that passes the zone-count and
zone/extend-presence checks, has unordered changes, but also has a 256-byte
designation buffer, fails with the designations-too-long error — not the
unordered-transitions error the claim requires. -/
theorem C7_ordering_counterexample :
    buildTZData c7Template = Except.error BuildError.designationsTooLong := by
  exact rfl

/-- C7 amended: for a template that passes the zone-count, zone/extend
presence, change-count AND designation-length checks, an adjacent
non-increasing pair of changes yields exactly the unordered-transitions
error, and strictly increasing changes never yield it. -/
theorem C7_ordering_amended (t : Template)
    (h1 : t.Zones.length ≤ maxUserZones)
    (h2 : ¬(t.Zones = [] ∧ t.Extend = []))
    (h3 : t.Changes.length ≤ 4294967295)
    (h4 : (buildDesignations t).charcnt ≤ 255) :
    ((∃ i, i + 1 < t.Changes.length ∧
      (t.Changes.getD (i + 1) default).Start.after (t.Changes.getD i default).Start
        = false) →
      buildTZData t = Except.error BuildError.unordered)
    ∧ (strictlyOrdered t.Changes = true →
      buildTZData t ≠ Except.error BuildError.unordered) := by
  have hA : ¬(maxUserZones < t.Zones.length) := Nat.not_lt.mpr h1
  have hB : ¬(t.Zones.isEmpty && t.Extend.isEmpty) = true := by
    simpa [List.isEmpty_iff] using h2
  have hC : ¬(4294967295 < t.Changes.length) := Nat.not_lt.mpr h3
  have hD : ¬(255 < (buildDesignations t).charcnt) := Nat.not_lt.mpr h4
  constructor
  · intro hex
    have hso : strictlyOrdered t.Changes = false :=
      (strictlyOrdered_eq_false_iff _).mpr hex
    simp [buildTZData, hA, hB, hC, hD, hso]
  · intro hso
    simp [buildTZData, hA, hB, hC, hD, hso]

/-- Witness for C7's amended theorem: two changes at the same instant give
the unordered-transitions error once the other checks pass. -/
theorem C7_ordering_amended_witness :
    buildTZData c7Witness = Except.error BuildError.unordered :=
  (C7_ordering_amended c7Witness (by decide) (by decide) (by decide)
    (by decide)).1 ⟨0, by decide, by decide⟩

/-- C8: any template with more than 254 zones is rejected with the
too-many-zones error, and a concrete 254-zone template encodes
successfully. -/
theorem C8_zone_cap :
    (∀ t : Template, maxUserZones < t.Zones.length →
      buildTZData t = Except.error BuildError.tooManyZones)
    ∧ (∃ b, buildTZData ex254 = Except.ok b) := by
  refine ⟨fun t h => ?_, ⟨_, rfl⟩⟩
  simp [buildTZData, h]

/-- Witness for C8 at a concrete 255-zone template. -/
theorem C8_zone_cap_witness :
    buildTZData ex255 = Except.error BuildError.tooManyZones :=
  C8_zone_cap.1 ex255 (by simp [ex255, maxUserZones])

/-- C6: once the header and sections parse, decoding fails with the
unsupported-indicator error exactly when some std/wall or UT/local
indicator byte differs from 1. -/
theorem C6_indicator_rejection (b : List Nat) (s : Sections)
    (h : parseHeaderSections b = Except.ok s) :
    LoadTZData b = LoadResult.err LoadError.stdUT ↔
      (∃ x ∈ s.isstd, x ≠ 1) ∨ (∃ x ∈ s.isut, x ≠ 1) := by
  have hL : LoadTZData b = decodeSections s := by
    unfold LoadTZData
    rw [h]
  rw [hL]
  unfold decodeSections
  constructor
  · intro hres
    by_cases h1 : s.isstd.any (fun x => x != 1) = true
    · obtain ⟨x, hx, hp⟩ := List.any_eq_true.mp h1
      exact Or.inl ⟨x, hx, by simpa using hp⟩
    · rw [if_neg h1] at hres
      by_cases h2 : s.isut.any (fun x => x != 1) = true
      · obtain ⟨x, hx, hp⟩ := List.any_eq_true.mp h2
        exact Or.inr ⟨x, hx, by simpa using hp⟩
      · rw [if_neg h2] at hres
        exact absurd hres (decodeBody_ne_stdUT s)
  · intro hex
    by_cases h1 : s.isstd.any (fun x => x != 1) = true
    · rw [if_pos h1]
    · rw [if_neg h1]
      have h2 : s.isut.any (fun x => x != 1) = true := by
        rcases hex with ⟨x, hx, hp⟩ | ⟨x, hx, hp⟩
        · exact absurd (List.any_eq_true.mpr ⟨x, hx, by simpa using hp⟩) h1
        · exact List.any_eq_true.mpr ⟨x, hx, by simpa using hp⟩
      rw [if_pos h2]

/-- Witness for C6 at a buffer whose single std/wall indicator byte is 2. -/
theorem C6_indicator_rejection_witness :
    LoadTZData c6buf = LoadResult.err LoadError.stdUT :=
  (C6_indicator_rejection c6buf c6secs (by rfl)).mpr
    (Or.inl ⟨2, by decide, by decide⟩)

/-- C9: whenever decoding succeeds, the returned template's name is the
empty string — the location name is never recovered from TZif data. -/
theorem C9_name_empty (b : List Nat) (t : Template)
    (h : LoadTZData b = LoadResult.ok t) : t.Name = [] := by
  unfold LoadTZData at h
  split at h
  · exact absurd h (by simp)
  · unfold decodeSections at h
    split at h
    · exact absurd h (by simp)
    · split at h
      · exact absurd h (by simp)
      · simp only [decodeBody] at h
        split at h
        · exact absurd h (by simp)
        · split at h
          · exact absurd h (by simp)
          · split at h
            · exact absurd h (by simp)
            · split at h
              · exact absurd h (by simp)
              · simp only [LoadResult.ok.injEq] at h
                exact h ▸ rfl

/-- Witness for C9 at a concrete buffer that decodes successfully. -/
theorem C9_name_empty_witness :
    LoadTZData b9 = LoadResult.ok t9 ∧ t9.Name = [] :=
  ⟨by rfl, C9_name_empty b9 t9 (by rfl)⟩

/-- C10: a local-time-type record whose designation offset is in range of
the designation buffer but with no NUL byte from there on decodes without
error, and the zone's name is the whole tail of the buffer from that
offset. -/
theorem C10_name_runs_to_end (o1 o2 o3 o4 d idx : Nat) (chars : List Nat)
    (hd : d = 0 ∨ d = 1) (h1 : idx < chars.length)
    (h2 : ∀ c ∈ chars.drop idx, c ≠ 0) :
    parseZones [o1, o2, o3, o4, d, idx] chars 1 =
      Except.ok [⟨chars.drop idx,
        toInt32 (beN 4 [o1, o2, o3, o4]) * 1000000000, d == 1⟩] := by
  have hz := zeroTerminated_eq_self (chars.drop idx) h2
  have hlt : ¬(idx ≥ chars.length) := Nat.not_le.mpr h1
  rcases hd with rfl | rfl
  · simp [parseZones, hlt, hz, beN]
  · simp [parseZones, hlt, hz, beN]

/-- Witness for C10: offset 1 into the two-byte NUL-free buffer "AB". -/
theorem C10_name_runs_to_end_witness :
    parseZones [0, 0, 0, 0, 0, 1] [65, 66] 1 = Except.ok [⟨[66], 0, false⟩] := by
  have h := C10_name_runs_to_end 0 0 0 0 0 1 [65, 66] (Or.inl rfl)
    (by decide) (by decide)
  simpa using h

/-! ### Spec-side formulation of the first-zone heuristic (claim C4) -/

/-- Per the spec's words: the first non-DST zone in index order over all
zones; 0 when no non-DST zone exists. -/
def firstNonDSTSpec (zones : List Zone) : Nat :=
  if zones.findIdx (fun z => !z.IsDST) < zones.length
  then zones.findIdx (fun z => !z.IsDST) else 0

/-- Per the spec's words: the nearest non-DST zone strictly preceding
index `idx` (the greatest qualifying index below `idx`), if any. -/
def nearestPrecedingNonDST (zones : List Zone) (idx : Nat) : Option Nat :=
  ((List.range idx).filter (fun k => !(zones.getD k default).IsDST)).getLast?

/-- The claim's description of the "true first zone" index: 0 when type 0
is unreferenced; otherwise, when the first transition's zone is DST, the
nearest preceding non-DST zone if one exists, else the first non-DST zone
overall, else 0. -/
def firstZoneSpec (zones : List Zone) (changes : List Change)
    (zeroIsUsed : Bool) : Nat :=
  if zeroIsUsed = false then 0
  else
    match changes with
    | [] => firstNonDSTSpec zones
    | c :: _ =>
      if (zones.getD c.ZoneIndex.toNat default).IsDST then
        match nearestPrecedingNonDST zones c.ZoneIndex.toNat with
        | some j => j
        | none => firstNonDSTSpec zones
      else firstNonDSTSpec zones

/-- The forward scan computes the index of the first non-DST zone, shifted
by the accumulator, or 0 when every zone is DST. -/
theorem fwdScanAux_eq : ∀ (zs : List Zone) (i : Nat),
    fwdScanAux zs i =
      if zs.findIdx (fun z => !z.IsDST) < zs.length
      then i + zs.findIdx (fun z => !z.IsDST) else 0
  | [], i => by simp [fwdScanAux]
  | z :: zs, i => by
    rw [fwdScanAux]
    by_cases hz : z.IsDST
    · rw [if_pos hz, fwdScanAux_eq zs (i + 1), List.findIdx_cons]
      simp only [hz, Bool.not_true, cond_false, List.length_cons,
        Nat.add_lt_add_iff_right]
      by_cases hfi : zs.findIdx (fun z => !z.IsDST) < zs.length
      · rw [if_pos hfi, if_pos hfi]
        omega
      · rw [if_neg hfi, if_neg hfi]
    · rw [if_neg hz, List.findIdx_cons]
      simp [hz]

/-- The backward scan from index `j` computes the greatest index `k ≤ j`
holding a non-DST zone, if any. -/
theorem backScan_eq : ∀ (zones : List Zone) (j : Nat), j < zones.length →
    backScan zones j =
      ((List.range (j + 1)).filter (fun k => !(zones.getD k default).IsDST)).getLast?
  | [], 0, h => absurd h (by simp)
  | z :: zs, 0, _ => by
    rw [backScan]
    by_cases hz : z.IsDST <;>
      simp [hz, List.range_succ]
  | zones, j + 1, h => by
    have hj : j < zones.length := Nat.lt_of_succ_lt h
    have hsome : zones[j + 1]? = some zones[j + 1] := List.getElem?_eq_getElem h
    have hgd2 : zones[j + 1]?.getD default = zones[j + 1] := by
      rw [hsome]
      rfl
    rw [List.range_succ, List.filter_append]
    simp only [backScan, List.get?_eq_getElem?, hsome]
    by_cases hz : zones[j + 1].IsDST = true
    · rw [if_pos hz, backScan_eq zones j hj]
      have hfc : List.filter (fun k => !(zones.getD k default).IsDST) [j + 1] = [] := by
        simp [List.getD_eq_getElem?_getD, hgd2, hz]
      rw [hfc, List.append_nil]
    · rw [if_neg hz]
      have hfc : List.filter (fun k => !(zones.getD k default).IsDST) [j + 1] =
          [j + 1] := by
        simp [List.getD_eq_getElem?_getD, hgd2, hz]
      rw [hfc, List.getLast?_concat]

/-- `getD` after a `set`, with the default value. -/
theorem getD_set_eq : ∀ (l : List Zone) (i k : Nat) (v : Zone),
    (l.set i v).getD k default =
      if i = k ∧ i < l.length then v else l.getD k default
  | [], i, k, v => by simp
  | a :: l, 0, 0, v => by simp
  | a :: l, 0, k + 1, v => by simp
  | a :: l, i + 1, 0, v => by simp
  | a :: l, i + 1, k + 1, v => by
    simp only [List.set_cons_succ, List.getD_cons_succ, List.length_cons]
    rw [getD_set_eq l i k v]
    by_cases hik : i = k ∧ i < l.length
    · rw [if_pos hik, if_pos ⟨by omega, by omega⟩]
    · rw [if_neg hik, if_neg (by omega)]

/-- `any` respects pointwise-equal predicates. -/
theorem any_congr_mem : ∀ (l : List Change) (p q : Change → Bool),
    (∀ x ∈ l, p x = q x) → l.any p = l.any q
  | [], _, _, _ => rfl
  | x :: xs, p, q, h => by
    simp only [List.any_cons, h x (by simp),
      any_congr_mem xs p q (fun y hy => h y (by simp [hy]))]

/-- C4: the decoder's first-zone computation agrees with the claim's
description (given that the first transition's type index is in range, as
it is whenever decoding reaches this step without crashing), and for
`fz ≠ 0` the correction swaps zones 0 and `fz`, remaps every transition
index by the 0↔fz swap, and recomputes the zero-is-used flag as "index 0
is referenced after the remap". -/
theorem C4_first_zone_selection (zones : List Zone) (changes : List Change)
    (zeroIsUsed : Bool)
    (h : zeroIsUsed = true → changes ≠ [] →
      0 ≤ (changes.headD default).ZoneIndex ∧
        (changes.headD default).ZoneIndex.toNat < zones.length) :
    firstZone zones changes zeroIsUsed = some (firstZoneSpec zones changes zeroIsUsed)
    ∧ ∀ fz : Nat, fz ≠ 0 → fz < zones.length →
      (∀ k, (swapRemap zones changes fz).1.getD k default =
        if k = 0 then zones.getD fz default
        else if k = fz then zones.getD 0 default
        else zones.getD k default)
      ∧ (swapRemap zones changes fz).2.1 = changes.map (fun c =>
          if c.ZoneIndex = 0 then ⟨c.Start, (fz : Int)⟩
          else if c.ZoneIndex = (fz : Int) then ⟨c.Start, 0⟩ else c)
      ∧ (swapRemap zones changes fz).2.2 =
          (swapRemap zones changes fz).2.1.any (fun c => c.ZoneIndex == 0) := by
  constructor
  · cases zeroIsUsed with
    | false => simp [firstZone, firstZoneSpec]
    | true =>
      cases changes with
      | nil =>
        simp only [firstZone, Bool.not_true, Bool.false_eq_true, if_false,
          firstZoneSpec, firstNonDSTSpec]
        rw [fwdScanAux_eq]
        by_cases hfi : zones.findIdx (fun z => !z.IsDST) < zones.length <;>
          simp [hfi]
      | cons c cs =>
        obtain ⟨hge, hlt⟩ := h rfl (by simp)
        simp only [List.headD_cons] at hge hlt
        have hnneg : ¬(c.ZoneIndex < 0) := not_lt.mpr hge
        have hsome : zones[c.ZoneIndex.toNat]? = some zones[c.ZoneIndex.toNat] :=
          List.getElem?_eq_getElem hlt
        have hgd : zones.getD c.ZoneIndex.toNat default = zones[c.ZoneIndex.toNat] := by
          rw [List.getD_eq_getElem?_getD, hsome]
          rfl
        simp only [firstZone, firstZoneSpec, Bool.not_true, Bool.false_eq_true,
          if_false, hnneg, List.get?_eq_getElem?, hsome, hgd]
        by_cases hdst : zones[c.ZoneIndex.toNat].IsDST = true
        · simp only [hdst, if_true]
          cases hn : c.ZoneIndex.toNat with
          | zero =>
            rw [fwdScanAux_eq]
            simp [nearestPrecedingNonDST, firstNonDSTSpec]
          | succ j =>
            rw [hn] at hlt
            have hbs := backScan_eq zones j (Nat.lt_of_succ_lt hlt)
            simp only [nearestPrecedingNonDST, hbs.symm]
            cases hopt : backScan zones j with
            | some i => rfl
            | none =>
              rw [fwdScanAux_eq]
              simp [firstNonDSTSpec]
        · simp only [hdst, if_false]
          rw [fwdScanAux_eq]
          simp [firstNonDSTSpec]
  · intro fz hfz hlen
    refine ⟨?_, rfl, ?_⟩
    · intro k
      show (((zones.set 0 (zones.getD fz default)).set fz
        (zones.getD 0 default))).getD k default = _
      rw [getD_set_eq, List.length_set, getD_set_eq]
      by_cases hk0 : k = 0
      · subst hk0
        rw [if_neg (by omega), if_pos ⟨rfl, by omega⟩, if_pos rfl]
      · by_cases hkf : k = fz
        · subst hkf
          rw [if_pos ⟨rfl, hlen⟩, if_neg hk0, if_pos rfl]
        · rw [if_neg (by omega), if_neg (by omega), if_neg hk0, if_neg hkf]
    · show changes.any (fun c => c.ZoneIndex == (fz : Int)) =
        (changes.map (fun c =>
          if c.ZoneIndex = 0 then ⟨c.Start, (fz : Int)⟩
          else if c.ZoneIndex = (fz : Int) then ⟨c.Start, 0⟩ else c)).any
          (fun c => c.ZoneIndex == 0)
      rw [List.any_map]
      apply any_congr_mem
      intro x _
      by_cases hx0 : x.ZoneIndex = 0
      · simp only [Function.comp_apply, hx0, if_pos rfl]
        have : ¬((fz : Int) = 0) := by
          simpa using hfz
        simp [hx0, this, Ne.symm this]
      · by_cases hxf : x.ZoneIndex = (fz : Int)
        · simp [Function.comp_apply, hx0, hxf, hfz]
        · simp [Function.comp_apply, hx0, hxf]

/-- Zones used by the C4 witness: a DST zone then a non-DST zone. -/
def c4zones : List Zone := [⟨[], 0, true⟩, ⟨[], 0, false⟩]

/-- Changes used by the C4 witness: one transition into zone 0. -/
def c4changes : List Change := [⟨⟨0, 0⟩, 0⟩]

/-- Witness for C4 at concrete zones and changes with type 0 in use. -/
theorem C4_first_zone_selection_witness :
    firstZone c4zones c4changes true = some (firstZoneSpec c4zones c4changes true) :=
  (C4_first_zone_selection c4zones c4changes true
    (fun _ _ => ⟨by decide, by decide⟩)).1

end TZ
